import Mathlib

/-!
Verification development for the checkout/payment orchestration subsystem
(`src/backend/src/PaymentAgent/`): the Universal Checkout Protocol (UCP)
client (`ucp_client.py`), the browser-automation fallback
(`browser_automation.py`), and the orchestrating `PaymentAgent`
(`payment_agent.py`).

The Python code is shallowly embedded: every network interaction is a
parameter of the embedded function (an environment value describing the
response the outside world would give), mutable attributes become explicit
state passing, and raised exceptions become `Except` error values.  Each
embedded function also returns the list of outbound requests it issued, so
that theorems can speak about which network calls a code path performs.
-/

namespace PaymentAgentSpec

/-! ## Python string primitives used by `ucp_client.py` -/

/-- Python `s.rstrip(c)`: drop every trailing occurrence of `c`. -/
def pyRstrip (s : String) (c : Char) : String :=
  String.mk ((s.toList.reverse.dropWhile (fun x => x = c)).reverse)

/-- `s.startsWith p` computed on character lists. -/
def strStartsWith (s p : String) : Bool :=
  p.toList.isPrefixOf s.toList

/-- `s.drop n` computed on character lists. -/
def strDrop (s : String) (n : Nat) : String :=
  String.mk (s.toList.drop n)

/-- Python `s.replace(old, new)` on character lists: replace every
non-overlapping occurrence of `old`, scanning left to right.  The fuel
argument (instantiated with the input length, which each step strictly
decreases) makes the recursion structural. -/
def pyReplaceAux (old new : List Char) : Nat → List Char → List Char
  | 0, l => l
  | _, [] => []
  | fuel + 1, c :: rest =>
    if old ≠ [] ∧ List.IsPrefix old (c :: rest) then
      new ++ pyReplaceAux old new fuel (List.drop (old.length - 1) rest)
    else
      c :: pyReplaceAux old new fuel rest

/-- Python `s.replace(old, new)` for strings. -/
def pyReplace (s old new : String) : String :=
  String.mk (pyReplaceAux old.toList new.toList s.toList.length s.toList)

/-- Split an http(s) URL just after its scheme marker, returning the scheme
part and the remainder, or `none` when the string has no http(s) scheme. -/
def splitAfterScheme (s : String) : Option (String × String) :=
  if strStartsWith s "http://" then some ("http://", strDrop s 7)
  else if strStartsWith s "https://" then some ("https://", strDrop s 8)
  else none

/-- Split an http(s) URL into its origin (`scheme://authority`) and the
path-and-after part. -/
def originAndPath (base : String) : String × String :=
  match splitAfterScheme base with
  | some (sch, rest) =>
    let cs := rest.toList
    (sch ++ String.mk (cs.takeWhile (fun x => x ≠ '/')),
     String.mk (cs.dropWhile (fun x => x ≠ '/')))
  | none => (base, "")

/-- The directory part of a path: everything up to and including the last
slash, or `""` when the path has no slash. -/
def dirOf (path : String) : String :=
  String.mk ((path.toList.reverse.dropWhile (fun x => x ≠ '/')).reverse)

/-- Python `urllib.parse.urljoin`, restricted to the URL shapes
`ucp_client.py` produces: an http(s) base joined with a reference that is a
full http(s) URL, an absolute path, or a bare relative path (no dot
segments). -/
def urljoin (base ref : String) : String :=
  if (splitAfterScheme ref).isSome then ref
  else if strStartsWith ref "/" then (originAndPath base).1 ++ ref
  else if ref = "" then base
  else
    let (origin, path) := originAndPath base
    let d := dirOf path
    if d = "" then origin ++ "/" ++ ref else origin ++ d ++ ref

/-- Lookup in an association-list model of a Python `dict`, with the default
of `dict.get(key, default)`. -/
def lookupD (m : List (String × String)) (key dflt : String) : String :=
  match m.lookup key with
  | some v => v
  | none => dflt

/-! ## UCP client data model (`ucp_client.py`) -/

/-- `UCPCapabilities` pydantic model: the capability document discovered at
`/.well-known/ucp`.  `endpoints` is an association-list model of the Python
`Dict[str, str]`. -/
structure UCPCapabilities where
  supported : Bool
  version : String := "1.0"
  endpoints : List (String × String)
  features : List String := []
deriving DecidableEq, Repr

/-- An outbound HTTP request issued by the UCP client, as recorded by the
embedding: method, fully built URL, and the `Idempotency-Key` header when
one is attached. -/
structure HttpRequest where
  method : String
  url : String
  idemKey : Option String := none
  /-- The `payment_token` carried in a complete-checkout body, when any. -/
  token : Option String := none
deriving DecidableEq, Repr

/-- The exceptions the embedded UCP client can raise.  `exc msg` is a
generic Python `Exception(msg)` (the wrapped client errors the module
raises); `attrNone` is the `AttributeError` raised by evaluating
`self._capabilities.endpoints` while `_capabilities` is `None`. -/
inductive UCPError where
  | exc (msg : String)
  | attrNone
deriving DecidableEq, Repr

/-- Python `str(e)` for the embedded exceptions. -/
def UCPError.toMessage : UCPError → String
  | .exc msg => msg
  | .attrNone => "'NoneType' object has no attribute 'endpoints'"

/-- What the network returns for the `GET /.well-known/ucp` issued by
`discover`: either an HTTP response (final status plus the body parsed as a
capability document, `none` when the body does not parse as one), or a
transport-level `aiohttp.ClientError`. -/
inductive DiscoverWire where
  | response (status : Nat) (body : Option UCPCapabilities)
  | transportError (msg : String)
deriving DecidableEq, Repr

/-- The mutable attributes of a `UCPClient` instance: `base_url` (the
constructor argument with trailing slashes stripped) and the
`_capabilities` cache. -/
structure UCPClientState where
  base_url : String
  capabilities : Option UCPCapabilities := none
deriving DecidableEq, Repr

/-- `UCPClient.__init__`: strips trailing `/` from the merchant base URL and
starts with an empty capability cache. -/
def mkUCPClient (merchant_base_url : String) : UCPClientState :=
  { base_url := pyRstrip merchant_base_url '/', capabilities := none }

/-- `UCPClient.discover`.  Returns the result (capabilities or raised
exception), the client state after the call, and the requests issued.
Branches follow the source: a 404 caches `supported=False`; any status of
at least 400 makes `raise_for_status` raise (wrapped into the generic
discovery failure); otherwise the body is parsed and cached. -/
def ucpDiscover (wire : DiscoverWire) (st : UCPClientState) :
    Except UCPError UCPCapabilities × UCPClientState × List HttpRequest :=
  let url := urljoin st.base_url "/.well-known/ucp"
  let reqs := [{ method := "GET", url := url : HttpRequest }]
  match wire with
  | .transportError msg =>
    (.error (.exc ("UCP discovery failed: " ++ msg)), st, reqs)
  | .response status body =>
    if status = 404 then
      let caps : UCPCapabilities := { supported := false, endpoints := [] }
      (.ok caps, { st with capabilities := some caps }, reqs)
    else if 400 ≤ status then
      (.error (.exc ("UCP discovery failed: HTTP " ++ toString status)), st, reqs)
    else
      match body with
      | some caps => (.ok caps, { st with capabilities := some caps }, reqs)
      | none =>
        (.error (.exc "UCP discovery failed: invalid capability document"), st, reqs)

/-- `UCPClient.supports_ucp`: returns the cached `supported` flag, running
`discover` first when nothing is cached yet. -/
def ucpSupports (wire : DiscoverWire) (st : UCPClientState) :
    Except UCPError Bool × UCPClientState × List HttpRequest :=
  match st.capabilities with
  | some caps => (.ok caps.supported, st, [])
  | none =>
    match ucpDiscover wire st with
    | (.ok _, st', reqs) =>
      (.ok (match st'.capabilities with
            | some caps => caps.supported
            | none => false), st', reqs)
    | (.error e, st', reqs) => (.error e, st', reqs)

/-- A run of consecutive `supports_ucp` calls on one client instance: the
per-call results, the final state, and the total number of requests
issued. -/
def ucpSupportsRun (wires : List DiscoverWire) (st : UCPClientState) :
    List (Except UCPError Bool) × UCPClientState × Nat :=
  match wires with
  | [] => ([], st, 0)
  | w :: ws =>
    let (r, st', reqs) := ucpSupports w st
    let (rs, st'', n) := ucpSupportsRun ws st'
    (r :: rs, st'', reqs.length + n)

/-! ## Checkout dictionaries and the remaining UCP operations

The merchant's JSON responses are plain Python dicts.  `CheckoutDict` is
their projection onto the keys the repository ever reads
(`"protocol" in d`, `d["protocol"]`, `d.get("merchant_url")`,
`d.get("amount_total", 0)`, `d.get("merchant_account_id")`,
`d.get("url")`, `d.get("id")`): a `none` field models an absent key. -/

/-- Projection of a checkout/session dict onto the keys the agent reads. -/
structure CheckoutDict where
  id : Option String := none
  protocol : Option String := none
  merchant_url : Option String := none
  amount_total : Option Int := none
  merchant_account_id : Option String := none
  url : Option String := none
deriving DecidableEq, Repr

/-- The opaque order JSON returned by a merchant's complete-checkout
endpoint, carried through unchanged. -/
abbrev UcpOrder := String

/-- `UCPClient.create_checkout`: checks `supports_ucp` (which may trigger
discovery), raises when the merchant does not support UCP, then POSTs to
the advertised `create_checkout` endpoint (default `/ucp/checkout`).
`resp` is what the network exchange would yield for that POST. -/
def ucpCreateCheckout (wire : DiscoverWire) (resp : Except String CheckoutDict)
    (st : UCPClientState) :
    Except UCPError CheckoutDict × UCPClientState × List HttpRequest :=
  match ucpSupports wire st with
  | (.error e, st', reqs) => (.error e, st', reqs)
  | (.ok false, st', reqs) =>
    (.error (.exc "Merchant does not support UCP"), st', reqs)
  | (.ok true, st', reqs) =>
    match st'.capabilities with
    | none => (.error .attrNone, st', reqs)
    | some caps =>
      let endpoint := lookupD caps.endpoints "create_checkout" "/ucp/checkout"
      let url := urljoin st'.base_url endpoint
      let req : HttpRequest := { method := "POST", url := url }
      match resp with
      | .ok chk => (.ok chk, st', reqs ++ [req])
      | .error e =>
        (.error (.exc ("Create checkout failed: " ++ e)), st', reqs ++ [req])

/-- `UCPClient.update_checkout`: reads `self._capabilities.endpoints`
without a `None` check (an `AttributeError` when no discovery has
happened), substitutes `{id}` in the advertised path, and PATCHes it. -/
def ucpUpdateCheckout (resp : Except String CheckoutDict)
    (st : UCPClientState) (checkout_id : String) :
    Except UCPError CheckoutDict × List HttpRequest :=
  match st.capabilities with
  | none => (.error .attrNone, [])
  | some caps =>
    let endpoint :=
      lookupD caps.endpoints "update_checkout" ("/ucp/checkout/" ++ checkout_id)
    let url := urljoin st.base_url (pyReplace endpoint "{id}" checkout_id)
    let req : HttpRequest := { method := "PATCH", url := url }
    match resp with
    | .ok chk => (.ok chk, [req])
    | .error e => (.error (.exc ("Update checkout failed: " ++ e)), [req])

/-- `UCPClient.complete_checkout`: reads `self._capabilities.endpoints`
without a `None` check, substitutes `{id}`, and POSTs the payment token,
attaching the `Idempotency-Key` header when a key is supplied. -/
def ucpCompleteCheckout (resp : Except String UcpOrder)
    (st : UCPClientState) (checkout_id payment_token : String)
    (idempotency_key : Option String) :
    Except UCPError UcpOrder × List HttpRequest :=
  match st.capabilities with
  | none => (.error .attrNone, [])
  | some caps =>
    let endpoint := lookupD caps.endpoints "complete_checkout"
      ("/ucp/checkout/" ++ checkout_id ++ "/complete")
    let url := urljoin st.base_url (pyReplace endpoint "{id}" checkout_id)
    let req : HttpRequest :=
      { method := "POST", url := url, idemKey := idempotency_key,
        token := some payment_token }
    match resp with
    | .ok order => (.ok order, [req])
    | .error e => (.error (.exc ("Complete checkout failed: " ++ e)), [req])

/-- `UCPClient.cancel_checkout`: same access pattern, POST to the cancel
endpoint. -/
def ucpCancelCheckout (resp : Except String String)
    (st : UCPClientState) (checkout_id : String) :
    Except UCPError String × List HttpRequest :=
  match st.capabilities with
  | none => (.error .attrNone, [])
  | some caps =>
    let endpoint := lookupD caps.endpoints "cancel_checkout"
      ("/ucp/checkout/" ++ checkout_id ++ "/cancel")
    let url := urljoin st.base_url (pyReplace endpoint "{id}" checkout_id)
    let req : HttpRequest := { method := "POST", url := url }
    match resp with
    | .ok r => (.ok r, [req])
    | .error e => (.error (.exc ("Cancel checkout failed: " ++ e)), [req])

/-- `UCPClient.get_checkout`: same access pattern, GET of the checkout. -/
def ucpGetCheckout (resp : Except String CheckoutDict)
    (st : UCPClientState) (checkout_id : String) :
    Except UCPError CheckoutDict × List HttpRequest :=
  match st.capabilities with
  | none => (.error .attrNone, [])
  | some caps =>
    let endpoint :=
      lookupD caps.endpoints "get_checkout" ("/ucp/checkout/" ++ checkout_id)
    let url := urljoin st.base_url (pyReplace endpoint "{id}" checkout_id)
    let req : HttpRequest := { method := "GET", url := url }
    match resp with
    | .ok chk => (.ok chk, [req])
    | .error e => (.error (.exc ("Get checkout failed: " ++ e)), [req])

/-! ## Cart items and the browser-automation fallback
(`browser_automation.py`) -/

/-- A cart entry as built by `PaymentAgent._add_to_cart`: the dict
`{product_id, quantity, price_id, added_at}`. -/
structure CartItem where
  product_id : String
  quantity : Int
  price_id : Option String := none
  added_at : Nat := 0
deriving DecidableEq, Repr

/-- Projection of a shipping-address dict onto the keys the code reads;
`none` models an absent key. -/
structure AddrDict where
  line1 : Option String := none
  line2 : Option String := none
  city : Option String := none
  state : Option String := none
  postal_code : Option String := none
  country : Option String := none
deriving DecidableEq, Repr

/-- The structured result dict of the browser-automation steps
(`{success, error?, order_number?, message?, method?, screenshot?}`).
An outer `none` models an absent key; `screenshot`'s inner `Option` is the
`None` value stored under the key when screenshots are disabled. -/
structure BAResult where
  success : Bool
  error : Option String := none
  order_number : Option (Option String) := none
  message : Option String := none
  method : Option String := none
  screenshot : Option (Option String) := none
deriving DecidableEq, Repr

/-- Configuration of a `BrowserAutomation` instance that the embedded
control flow depends on. -/
structure BAConfig where
  screenshot_on_error : Bool := true
deriving DecidableEq, Repr

/-- Environment for one `automate_checkout` run: the outcome the outside
world (Playwright and the merchant page) gives each step.  `pre` covers
`start()`/`new_page()`, which run before the `try` block; `addOk` is
whether `_add_to_cart_generic` (which swallows its own exceptions and
returns a bool) succeeds for an item; `payment` and `complete` are the
result dicts `_handle_payment` and `_complete_order` return; `screenshot`
is the outcome of `page.screenshot` in the except handler. -/
structure BAEnv where
  pre : Except String Unit := .ok ()
  goto : Except String Unit := .ok ()
  addOk : CartItem → Bool := fun _ => true
  navigate : Except String Unit := .ok ()
  fillShipping : Except String Unit := .ok ()
  payment : BAResult := { success := true }
  complete : BAResult := { success := true }
  screenshot : Except String String := .ok "error_screenshot.png"

/-- Arguments of `automate_checkout` that the embedded control flow
depends on. -/
structure BAArgs where
  merchant_url : String
  cart_items : List CartItem
  shipping_address : Option AddrDict := none
deriving Repr

/-- The body of `automate_checkout`'s `try` block: an `.error` value is an
exception raised inside the block. -/
def baTryBody (env : BAEnv) (args : BAArgs) : Except String BAResult :=
  match env.goto with
  | .error e => .error e
  | .ok _ =>
    match args.cart_items.find? (fun i => ¬ env.addOk i) with
    | some i =>
      .ok { success := false,
            error := some ("Failed to add item " ++ i.product_id ++ " to cart") }
    | none =>
      match env.navigate with
      | .error e => .error e
      | .ok _ =>
        let afterFill : Except String Unit :=
          match args.shipping_address with
          | some _ => env.fillShipping
          | none => .ok ()
        match afterFill with
        | .error e => .error e
        | .ok _ =>
          if env.payment.success = false then .ok env.payment
          else .ok env.complete

/-- The observable outcome of one `automate_checkout` call: the returned
result (or the exception it propagates), and which browser resources the
call released. -/
structure BARun where
  outcome : Except String BAResult
  pageOpened : Bool
  pageClosed : Bool
  contextClosed : Bool
deriving Repr

/-- `BrowserAutomation.automate_checkout`.  `start()`/`new_page()` run
before the `try`; exceptions inside the `try` reach the except handler,
which takes a screenshot when enabled and returns a structured error; the
`finally` block closes the page (and only the page — `stop()` is what
closes the context, and `automate_checkout` never calls it). -/
def automateCheckout (cfg : BAConfig) (env : BAEnv) (args : BAArgs) : BARun :=
  match env.pre with
  | .error e =>
    { outcome := .error e, pageOpened := false, pageClosed := false,
      contextClosed := false }
  | .ok _ =>
    match baTryBody env args with
    | .ok r =>
      { outcome := .ok r, pageOpened := true, pageClosed := true,
        contextClosed := false }
    | .error e =>
      if cfg.screenshot_on_error then
        match env.screenshot with
        | .ok path =>
          { outcome := .ok { success := false, error := some e,
                             screenshot := some (some path) },
            pageOpened := true, pageClosed := true, contextClosed := false }
        | .error e2 =>
          { outcome := .error e2, pageOpened := true, pageClosed := true,
            contextClosed := false }
      else
        { outcome := .ok { success := false, error := some e,
                           screenshot := some none },
          pageOpened := true, pageClosed := true, contextClosed := false }

/-! ## The payment agent orchestrator (`payment_agent.py`) -/

/-- `LineItem` pydantic model. -/
structure LineItem where
  product_id : String
  quantity : Int
  price_id : Option String := none
  variant_id : Option String := none
deriving DecidableEq, Repr

/-- `BuyerInfo` pydantic model. -/
structure BuyerInfo where
  email : String
  name : Option String := none
  phone : Option String := none
deriving DecidableEq, Repr

/-- `Address` pydantic model (`line1`, `city`, `postal_code`, `country`
required). -/
structure UCPAddress where
  line1 : String
  line2 : Option String := none
  city : String
  state : Option String := none
  postal_code : String
  country : String
deriving DecidableEq, Repr

/-- `Address(**shipping_address)`: pydantic validation succeeds exactly when
the required keys are present (extra keys are ignored), and raises a
`ValidationError` otherwise. -/
def parseAddress (d : AddrDict) : Except String UCPAddress :=
  match d.line1, d.city, d.postal_code, d.country with
  | some l1, some ci, some pc, some co =>
    .ok { line1 := l1, line2 := d.line2, city := ci, state := d.state,
          postal_code := pc, country := co }
  | _, _, _, _ => .error "validation error for Address: field required"

/-- Python `a or b` for an optional string `a` (both `None` and `""` are
falsy). -/
def pyOrStr (o : Option String) (dflt : String) : String :=
  match o with
  | some s => if s = "" then dflt else s
  | none => dflt

/-- The mutable session state of a `PaymentAgent` instance that the
checkout operations touch: `current_cart` and `current_checkout`. -/
structure AgentState where
  current_cart : List CartItem := []
  current_checkout : Option CheckoutDict := none
deriving DecidableEq, Repr

/-- One downstream call performed by an agent operation, with the
arguments the source passes to it. -/
inductive AgentCall where
  | http (r : HttpRequest)
  | ucpCreateBody (items : List LineItem) (buyer : BuyerInfo)
      (address : Option UCPAddress)
  | browserRun (merchant_url : String)
  | stripeSessionCall (line_items : List (String × Int))
      (success_url cancel_url email : String)
  | sptCreate (amount : Int) (merchant_account_id : Option String)
deriving DecidableEq, Repr

/-- Result dict of `PaymentAgent._add_to_cart`. -/
structure AddToCartResult where
  success : Bool
  message : Option String := none
  error : Option String := none
  cart_size : Nat := 0
deriving DecidableEq, Repr

/-- `PaymentAgent._add_to_cart`: appends the new entry to `current_cart`
(no merge with an existing entry for the same product) and reports the new
cart size.  `now` is the `added_at` timestamp taken from the event loop. -/
def addToCart (cart : List CartItem) (product_id : String) (quantity : Int)
    (price_id : Option String) (now : Nat) : AddToCartResult × List CartItem :=
  let item : CartItem :=
    { product_id := product_id, quantity := quantity, price_id := price_id,
      added_at := now }
  let cart' := cart ++ [item]
  ({ success := true,
     message := some ("Added " ++ toString quantity ++ " item(s) to cart"),
     cart_size := cart'.length }, cart')

/-- Result dict of `PaymentAgent._view_cart`. -/
structure ViewCartResult where
  success : Bool
  cart : List CartItem
  item_count : Nat
deriving DecidableEq, Repr

/-- `PaymentAgent._view_cart`. -/
def viewCart (cart : List CartItem) : ViewCartResult :=
  { success := true, cart := cart, item_count := cart.length }

/-- Result dict of `PaymentAgent._create_checkout`, one constructor per
shape the source returns. -/
inductive CreateResult where
  | ucp (checkout : CheckoutDict)
  | stripeFallback (session : CheckoutDict)
  | browser (r : BAResult)
  | errored (e : String)
deriving DecidableEq, Repr

/-- The `success` entry of a `_create_checkout` result dict. -/
def CreateResult.success : CreateResult → Bool
  | .ucp _ => true
  | .stripeFallback _ => true
  | .browser r => r.success
  | .errored _ => false

/-- Environment of one `_create_checkout` call: the discovery response for
the fresh `UCPClient`, the merchant's create-checkout response, the
browser-automation environment, and Stripe's checkout-session response. -/
structure CreateEnv where
  wire : DiscoverWire
  ucpCreate : Except String CheckoutDict := .error "not reached"
  ba : BAEnv := {}
  stripeSession : Except String CheckoutDict := .error "not reached"

/-- `PaymentAgent._create_checkout`.  Returns the result dict, the agent
state after the call, the exception caught by the outer handler (when any),
and the downstream calls performed. -/
def agentCreateCheckout (enable_browser_fallback : Bool) (baCfg : BAConfig)
    (env : CreateEnv) (st : AgentState) (merchant_url buyer_email : String)
    (buyer_name : Option String) (shipping_address : Option AddrDict) :
    CreateResult × AgentState × Option String × List AgentCall :=
  let client := mkUCPClient merchant_url
  match ucpSupports env.wire client with
  | (.error e, _, reqs) =>
    let msg := e.toMessage
    (.errored msg, st, some msg, reqs.map .http)
  | (.ok supported, client', reqs) =>
    if supported then
      let items := st.current_cart.map (fun i =>
        ({ product_id := i.product_id, quantity := i.quantity,
           price_id := i.price_id } : LineItem))
      let buyer : BuyerInfo := { email := buyer_email, name := buyer_name }
      let addrRes : Except String (Option UCPAddress) :=
        match shipping_address with
        | none => .ok none
        | some d => (parseAddress d).map some
      match addrRes with
      | .error e => (.errored e, st, some e, reqs.map .http)
      | .ok address =>
        match ucpCreateCheckout env.wire env.ucpCreate client' with
        | (.error e, _, reqs2) =>
          let msg := e.toMessage
          (.errored msg, st, some msg,
           reqs.map .http ++ [.ucpCreateBody items buyer address] ++
             reqs2.map .http)
        | (.ok chk, _, reqs2) =>
          (.ucp chk, { st with current_checkout := some chk }, none,
           reqs.map .http ++ [.ucpCreateBody items buyer address] ++
             reqs2.map .http)
    else if enable_browser_fallback then
      let run := automateCheckout baCfg env.ba
        { merchant_url := merchant_url, cart_items := st.current_cart,
          shipping_address := shipping_address }
      match run.outcome with
      | .error e =>
        (.errored e, st, some e, reqs.map .http ++ [.browserRun merchant_url])
      | .ok r =>
        (.browser r, st, none, reqs.map .http ++ [.browserRun merchant_url])
    else
      let line_items := st.current_cart.map (fun i =>
        (pyOrStr i.price_id i.product_id, i.quantity))
      let call := AgentCall.stripeSessionCall line_items
        (merchant_url ++ "/success") (merchant_url ++ "/cancel") buyer_email
      match env.stripeSession with
      | .error e => (.errored e, st, some e, reqs.map .http ++ [call])
      | .ok session =>
        (.stripeFallback session,
         { st with current_checkout := some session }, none,
         reqs.map .http ++ [call])

/-- Result dict of `PaymentAgent._complete_checkout`.  An outer `none`
models an absent key; `checkout_url`'s inner `Option` is the value stored
under the key, which the source computes as `current_checkout.get("url")`
and may itself be `None`. -/
structure CompleteResult where
  success : Bool
  message : Option String := none
  error : Option String := none
  order : Option UcpOrder := none
  checkout_url : Option (Option String) := none
deriving DecidableEq, Repr

/-- The `{token, ...}` dict returned by
`StripeTools.create_shared_payment_token`, projected onto the key the
agent reads. -/
structure SptResult where
  token : String
deriving DecidableEq, Repr

/-- Environment of one `_complete_checkout` call: the Shared-Payment-Token
creation outcome at Stripe and the merchant's complete-checkout
response. -/
structure CompleteEnv where
  spt : Except String SptResult := .error "not reached"
  ucpComplete : Except String UcpOrder := .error "not reached"

/-- `PaymentAgent._complete_checkout`.  `uuid` is the fresh
`str(uuid.uuid4())` used as idempotency key.  Returns the result dict, the
agent state after the call, the exception caught by the outer handler
(when any), and the downstream calls performed.  The UCP branch builds a
fresh `UCPClient` from `current_checkout.get("merchant_url")` and calls its
`complete_checkout` without any prior discovery. -/
def agentCompleteCheckout (env : CompleteEnv) (uuid : String)
    (st : AgentState) (checkout_id : String) (confirm_purchase : Bool) :
    CompleteResult × AgentState × Option String × List AgentCall :=
  if confirm_purchase = false then
    ({ success := false, message := some "Purchase not confirmed by user" },
     st, none, [])
  else
    match st.current_checkout with
    | none => ({ success := false, error := some "No active checkout" },
               st, none, [])
    | some chk =>
      if chk.protocol = some "UCP" then
        match chk.merchant_url with
        | none =>
          let e := "'NoneType' object has no attribute 'rstrip'"
          ({ success := false, error := some e }, st, some e, [])
        | some murl =>
          let client := mkUCPClient murl
          let checkout_total := chk.amount_total.getD 0
          let merchant_account := chk.merchant_account_id
          let sptCall := AgentCall.sptCreate checkout_total merchant_account
          match env.spt with
          | .error e =>
            ({ success := false, error := some e }, st, some e, [sptCall])
          | .ok spt =>
            match ucpCompleteCheckout env.ucpComplete client checkout_id
                spt.token (some uuid) with
            | (.error e, reqs) =>
              let msg := e.toMessage
              ({ success := false, error := some msg }, st, some msg,
               sptCall :: reqs.map .http)
            | (.ok order, reqs) =>
              ({ success := true, order := some order,
                 message := some "Purchase completed successfully!" },
               { current_cart := [], current_checkout := none }, none,
               sptCall :: reqs.map .http)
      else
        ({ success := true, checkout_url := some chk.url,
           message := some "Please complete payment at the checkout URL" },
         st, none, [])

/-! ## Helper lemmas about discovery and the capability cache -/

/-- The discovery request issued by `discover` on a given client state. -/
def discoveryRequest (st : UCPClientState) : HttpRequest :=
  { method := "GET", url := urljoin st.base_url "/.well-known/ucp" }

theorem ucpDiscover_requests (wire : DiscoverWire) (st : UCPClientState) :
    (ucpDiscover wire st).2.2 = [discoveryRequest st] := by
  cases wire with
  | transportError m => rfl
  | response status body =>
    simp only [ucpDiscover, discoveryRequest]
    split
    · rfl
    · split
      · rfl
      · cases body <;> rfl

theorem ucpDiscover_ok (wire : DiscoverWire) (st : UCPClientState)
    (c : UCPCapabilities) (h : (ucpDiscover wire st).1 = .ok c) :
    ucpDiscover wire st = (.ok c, { st with capabilities := some c },
      [discoveryRequest st]) := by
  cases wire with
  | transportError m => simp [ucpDiscover] at h
  | response status body =>
    simp only [ucpDiscover, discoveryRequest] at h ⊢
    split at h
    · rename_i h404
      simp only [Except.ok.injEq] at h
      subst h
      simp [h404]
    · rename_i h404
      split at h
      · simp at h
      · rename_i h400
        cases body with
        | none => simp at h
        | some caps =>
          simp only [Except.ok.injEq] at h
          subst h
          simp [h404, h400]

theorem ucpDiscover_error (wire : DiscoverWire) (st : UCPClientState)
    (e : UCPError) (h : (ucpDiscover wire st).1 = .error e) :
    (ucpDiscover wire st).2.1 = st := by
  cases wire with
  | transportError m => rfl
  | response status body =>
    simp only [ucpDiscover] at h ⊢
    split at h
    · simp at h
    · rename_i h404
      split at h
      · rename_i h400
        simp [h404, h400]
      · rename_i h400
        cases body with
        | none => simp [h404, h400]
        | some caps => simp at h

theorem ucpSupports_cached (wire : DiscoverWire) (st : UCPClientState)
    (c : UCPCapabilities) (h : st.capabilities = some c) :
    ucpSupports wire st = (.ok c.supported, st, []) := by
  simp only [ucpSupports, h]

theorem ucpSupports_none_discover_ok (wire : DiscoverWire)
    (st : UCPClientState) (c : UCPCapabilities)
    (hnone : st.capabilities = none) (hok : (ucpDiscover wire st).1 = .ok c) :
    ucpSupports wire st = (.ok c.supported,
      { st with capabilities := some c }, [discoveryRequest st]) := by
  have hd := ucpDiscover_ok wire st c hok
  simp only [ucpSupports, hnone, hd]

theorem ucpSupports_none_requests (wire : DiscoverWire)
    (st : UCPClientState) (hnone : st.capabilities = none) :
    (ucpSupports wire st).2.2 = [discoveryRequest st] := by
  have hr := ucpDiscover_requests wire st
  simp only [ucpSupports, hnone]
  rcases hde : ucpDiscover wire st with ⟨r, st', reqs⟩
  rw [hde] at hr
  cases r <;> simpa using hr

theorem ucpSupportsRun_cached (wires : List DiscoverWire)
    (st : UCPClientState) (c : UCPCapabilities)
    (h : st.capabilities = some c) :
    ucpSupportsRun wires st =
      (wires.map (fun _ => .ok c.supported), st, 0) := by
  induction wires with
  | nil => rfl
  | cons w ws ih =>
    simp only [ucpSupportsRun, ucpSupports_cached w st c h, ih,
      List.map_cons, List.length_nil, Nat.zero_add]

/-! ## C1: `complete_checkout` with `confirm_purchase=false` -/

/-- C1: for every environment, fresh idempotency key, agent state (with or
without an active checkout) and checkout id, `_complete_checkout` with
`confirm_purchase=false` performs no downstream call, leaves `current_cart`
and `current_checkout` untouched, raises nothing, and returns exactly
`{success: false, message: "Purchase not confirmed by user"}`. -/
theorem complete_checkout_not_confirmed_is_noop (env : CompleteEnv)
    (uuid : String) (st : AgentState) (checkout_id : String) :
    agentCompleteCheckout env uuid st checkout_id false =
      ({ success := false, message := some "Purchase not confirmed by user" },
       st, none, []) := rfl

/-! ## C8: `add_to_cart` always appends a fresh entry -/

/-- C8: `_add_to_cart` appends exactly one new entry holding the given
product, quantity and price id, reports `success=true` with `cart_size`
equal to the new cart length (old length plus one); adding the same
`product_id` twice therefore yields two distinct cart entries — the count
of entries for that product grows by two, with no quantity merge. -/
theorem add_to_cart_appends (cart : List CartItem) (pid : String)
    (qty qty' : Int) (price price' : Option String) (now now' : Nat) :
    let r := addToCart cart pid qty price now
    let r2 := addToCart r.2 pid qty' price' now'
    r.1.success = true ∧
    r.1.cart_size = r.2.length ∧
    r.2.length = cart.length + 1 ∧
    r.2 = cart ++ [{ product_id := pid, quantity := qty, price_id := price,
                     added_at := now }] ∧
    r2.2.length = cart.length + 2 ∧
    r2.2.countP (fun i => i.product_id == pid) =
      cart.countP (fun i => i.product_id == pid) + 2 := by
  refine ⟨rfl, rfl, by simp [addToCart], rfl, by simp [addToCart], ?_⟩
  simp [addToCart, List.countP_append, List.countP_cons]

/-! ## C10: operations other than `create_checkout` need prior discovery -/

/-- C10: on a freshly constructed `UCPClient` (no `discover`,
`supports_ucp` or `create_checkout` yet, so `_capabilities` is `None`),
`update_checkout`, `complete_checkout`, `cancel_checkout` and
`get_checkout` all raise the `AttributeError` on `None` — which is not a
wrapped client error — before issuing any request; only `create_checkout`
auto-triggers discovery, its first request being the `GET /.well-known/ucp`
of `discover`. -/
theorem ucp_ops_require_discovery (base cid tok : String)
    (idem : Option String) (r1 : Except String CheckoutDict)
    (r2 : Except String UcpOrder) (r3 : Except String String)
    (r4 : Except String CheckoutDict) (wire : DiscoverWire)
    (rc : Except String CheckoutDict) (m : String) :
    ucpUpdateCheckout r1 (mkUCPClient base) cid = (.error .attrNone, []) ∧
    ucpCompleteCheckout r2 (mkUCPClient base) cid tok idem =
      (.error .attrNone, []) ∧
    ucpCancelCheckout r3 (mkUCPClient base) cid = (.error .attrNone, []) ∧
    ucpGetCheckout r4 (mkUCPClient base) cid = (.error .attrNone, []) ∧
    UCPError.attrNone ≠ UCPError.exc m ∧
    (ucpCreateCheckout wire rc (mkUCPClient base)).2.2.head? =
      some (discoveryRequest (mkUCPClient base)) := by
  refine ⟨rfl, rfl, rfl, rfl, by simp, ?_⟩
  have hreq := ucpSupports_none_requests wire (mkUCPClient base) rfl
  simp only [ucpCreateCheckout]
  rcases hs : ucpSupports wire (mkUCPClient base) with ⟨r, st', reqs⟩
  rw [hs] at hreq
  simp only at hreq
  subst hreq
  cases r with
  | error e => rfl
  | ok b =>
    cases b
    · rfl
    · cases hc : st'.capabilities with
      | none => simp [hc]
      | some caps => cases rc <;> simp [hc]

/-! ## C7: discovery is cached for the lifetime of the client instance -/

/-- C7 counterexample: the claim says `supports_ucp` triggers `discover`
at most once per instance.  But only a discovery that returns caches
anything: when discovery raises (here, two transport failures), the cache
stays `None` and a second `supports_ucp` call triggers `discover` again —
two discovery requests on one instance. -/
theorem supports_ucp_retriggers_counterexample :
    ucpSupportsRun
      [DiscoverWire.transportError "timeout a",
       DiscoverWire.transportError "timeout b"]
      (mkUCPClient "https://down.example") =
      ([Except.error (.exc "UCP discovery failed: timeout a"),
        Except.error (.exc "UCP discovery failed: timeout b")],
       mkUCPClient "https://down.example", 2) := rfl

/-- C7 as amended: once `_capabilities` is cached (non-`None`), every
`supports_ucp` call on the instance returns the cached `supported` flag,
issues zero requests and leaves the cache untouched — over an arbitrary
run of calls; and starting from an empty cache, a run whose first call's
discovery succeeds (404 included, since a 404 caches `supported=false`)
issues exactly one request in total — `discover` is triggered only by
calls made while nothing is cached, so only a failed discovery can lead
to a re-trigger. -/
theorem supports_ucp_discovery_cached :
    (∀ (st : UCPClientState) (c : UCPCapabilities)
       (wires : List DiscoverWire), st.capabilities = some c →
       ucpSupportsRun wires st =
         (wires.map (fun _ => .ok c.supported), st, 0)) ∧
    (∀ (st : UCPClientState) (w : DiscoverWire) (ws : List DiscoverWire)
       (c : UCPCapabilities), st.capabilities = none →
       (ucpDiscover w st).1 = .ok c →
       ucpSupportsRun (w :: ws) st =
         (Except.ok c.supported :: ws.map (fun _ => .ok c.supported),
          { st with capabilities := some c }, 1)) := by
  constructor
  · exact fun st c wires h => ucpSupportsRun_cached wires st c h
  · intro st w ws c hnone hok
    have hs := ucpSupports_none_discover_ok w st c hnone hok
    have hrest := ucpSupportsRun_cached ws { st with capabilities := some c } c rfl
    simp only [ucpSupportsRun, hs, hrest, List.length_cons, List.length_nil]

/-- Witness for C7 at a concrete client: a 404 discovery on the first call
caches `supported=false`; the two later calls (whatever the network would
have said) issue no request, for one request in total. -/
theorem supports_ucp_discovery_cached_witness :
    ucpSupportsRun
      [DiscoverWire.response 404 none, DiscoverWire.transportError "down",
       DiscoverWire.response 500 none]
      (mkUCPClient "https://shop.example.com") =
      ([Except.ok false, Except.ok false, Except.ok false],
       { mkUCPClient "https://shop.example.com" with
         capabilities := some { supported := false, endpoints := [] } }, 1) :=
  supports_ucp_discovery_cached.2 (mkUCPClient "https://shop.example.com")
    (DiscoverWire.response 404 none)
    [DiscoverWire.transportError "down", DiscoverWire.response 500 none]
    { supported := false, endpoints := [] } rfl rfl

/-! ## C5: discovery treats 404 as "not supported", raises on 4xx/5xx -/

/-- C5 counterexample: the claim says every non-2xx discovery response
other than 404 raises.  A 301 response that is not resolved at the
transport layer and carries a valid capability body is non-2xx and
non-404, yet `discover` raises nothing: `raise_for_status` only raises for
statuses of at least 400, so the body is parsed and returned. -/
theorem discover_non_2xx_counterexample :
    ¬ (200 ≤ 301 ∧ 301 < 300) ∧ (301 : Nat) ≠ 404 ∧
    (ucpDiscover
      (DiscoverWire.response 301 (some
        { supported := true, endpoints := [("create_checkout", "/ucp/checkout")],
          features := ["realtime_tax"] }))
      (mkUCPClient "https://shop.example.com")).1 =
      .ok { supported := true,
            endpoints := [("create_checkout", "/ucp/checkout")],
            features := ["realtime_tax"] } := by
  refine ⟨by omega, by omega, ?_⟩
  rfl

/-- C5 as amended: a 404 discovery response yields `supported=false`
(cached) with no exception, and a subsequent `supports_ucp` returns
`false` without another request; any response with status at least 400
other than 404, and any transport error, raises a wrapped client
exception and leaves the cache unchanged.  (A non-2xx status below 400 is
not raised on; its body is parsed as on a 2xx.) -/
theorem discover_error_handling :
    (∀ (st : UCPClientState) (body : Option UCPCapabilities),
       ucpDiscover (.response 404 body) st =
         (.ok { supported := false, endpoints := [] },
          { st with capabilities := some { supported := false, endpoints := [] } },
          [discoveryRequest st]) ∧
       (∀ w, ucpSupports w
          { st with capabilities := some { supported := false, endpoints := [] } } =
          (.ok false,
           { st with capabilities := some { supported := false, endpoints := [] } },
           []))) ∧
    (∀ (st : UCPClientState) (status : Nat) (body : Option UCPCapabilities),
       400 ≤ status → status ≠ 404 →
       ucpDiscover (.response status body) st =
         (.error (.exc ("UCP discovery failed: HTTP " ++ toString status)),
          st, [discoveryRequest st])) ∧
    (∀ (st : UCPClientState) (m : String),
       ucpDiscover (.transportError m) st =
         (.error (.exc ("UCP discovery failed: " ++ m)), st,
          [discoveryRequest st])) := by
  refine ⟨fun st body => ⟨rfl, fun w => rfl⟩, ?_, fun st m => rfl⟩
  intro st status body h400 h404
  simp [ucpDiscover, discoveryRequest, h404, h400]

/-- Witness for C5 (amended) at concrete inputs: a 404 gives
`supported=false` with no exception and a request-free `supports_ucp`
afterwards, and a 500 raises the wrapped discovery failure. -/
theorem discover_error_handling_witness :
    (ucpDiscover (.response 404 none) (mkUCPClient "https://a.example") =
      (.ok { supported := false, endpoints := [] },
       { mkUCPClient "https://a.example" with
         capabilities := some { supported := false, endpoints := [] } },
       [discoveryRequest (mkUCPClient "https://a.example")])) ∧
    ((400 ≤ 500 ∧ (500 : Nat) ≠ 404) ∧
     ucpDiscover (.response 500 none) (mkUCPClient "https://a.example") =
       (.error (.exc ("UCP discovery failed: HTTP " ++ toString (500 : Nat))),
        mkUCPClient "https://a.example",
        [discoveryRequest (mkUCPClient "https://a.example")])) :=
  ⟨(discover_error_handling.1 (mkUCPClient "https://a.example") none).1,
   ⟨by omega, by omega⟩,
   discover_error_handling.2.1 (mkUCPClient "https://a.example") 500 none
     (by omega) (by omega)⟩

/-! ## C6: advertised endpoint paths are used verbatim, with `{id}`
substitution and defaults -/

/-- C6: request URLs are built from the discovered `endpoints` map used
verbatim.  Concretely: after discovery against
`https://shop.example.com` returns the spec's capability document, a
`create_checkout` POSTs to `https://shop.example.com/ucp/checkout`; an
advertised path containing `{id}` has the checkout id substituted for the
four id-bearing operations; an operation whose endpoint is not advertised
falls back to its default path; and in general every operation's single
request uses exactly the advertised-or-default path (with `{id}`
replaced by the checkout id for `update`/`complete`/`cancel`/`get`). -/
theorem endpoints_used_verbatim :
    (let capsEx : UCPCapabilities :=
      { supported := true,
        endpoints := [("create_checkout", "/ucp/checkout")],
        features := ["realtime_tax"] }
     ucpDiscover (.response 200 (some capsEx))
        (mkUCPClient "https://shop.example.com") =
      (.ok capsEx,
       { base_url := "https://shop.example.com",
         capabilities := some capsEx },
       [{ method := "GET",
          url := "https://shop.example.com/.well-known/ucp" }]) ∧
     (ucpCreateCheckout (.response 200 (some capsEx))
        (.ok { id := some "chk_1" })
        (mkUCPClient "https://shop.example.com")).2.2 =
      [{ method := "GET", url := "https://shop.example.com/.well-known/ucp" },
       { method := "POST", url := "https://shop.example.com/ucp/checkout" }]) ∧
    (let capsId : UCPCapabilities :=
      { supported := true,
        endpoints := [("update_checkout", "/api/checkout/{id}"),
                      ("complete_checkout", "/api/checkout/{id}/complete"),
                      ("cancel_checkout", "/api/checkout/{id}/cancel"),
                      ("get_checkout", "/api/checkout/{id}")] }
     let stId : UCPClientState :=
      { base_url := "https://shop.example.com", capabilities := some capsId }
     (ucpUpdateCheckout (.ok {}) stId "abc123").2 =
        [{ method := "PATCH",
           url := "https://shop.example.com/api/checkout/abc123" }] ∧
     (ucpCompleteCheckout (.ok "order") stId "abc123" "tok_1" (some "k1")).2 =
        [{ method := "POST",
           url := "https://shop.example.com/api/checkout/abc123/complete",
           idemKey := some "k1", token := some "tok_1" }] ∧
     (ucpCancelCheckout (.ok "cancelled") stId "abc123").2 =
        [{ method := "POST",
           url := "https://shop.example.com/api/checkout/abc123/cancel" }] ∧
     (ucpGetCheckout (.ok {}) stId "abc123").2 =
        [{ method := "GET",
           url := "https://shop.example.com/api/checkout/abc123" }]) ∧
    (let stDef : UCPClientState :=
      { base_url := "https://shop.example.com",
        capabilities := some { supported := true, endpoints := [] } }
     (ucpCreateCheckout (.response 404 none) (.ok {}) stDef).2.2 =
        [{ method := "POST", url := "https://shop.example.com/ucp/checkout" }] ∧
     (ucpUpdateCheckout (.ok {}) stDef "abc123").2 =
        [{ method := "PATCH",
           url := "https://shop.example.com/ucp/checkout/abc123" }] ∧
     (ucpCompleteCheckout (.ok "order") stDef "abc123" "tok_1" none).2 =
        [{ method := "POST",
           url := "https://shop.example.com/ucp/checkout/abc123/complete",
           token := some "tok_1" }] ∧
     (ucpCancelCheckout (.ok "cancelled") stDef "abc123").2 =
        [{ method := "POST",
           url := "https://shop.example.com/ucp/checkout/abc123/cancel" }] ∧
     (ucpGetCheckout (.ok {}) stDef "abc123").2 =
        [{ method := "GET",
           url := "https://shop.example.com/ucp/checkout/abc123" }]) ∧
    (∀ (base checkout_id : String) (caps : UCPCapabilities)
       (chk : CheckoutDict) (order cancelled : String),
     (ucpUpdateCheckout (.ok chk) { base_url := base, capabilities := some caps } checkout_id).2 =
        [{ method := "PATCH",
           url := urljoin base (pyReplace (lookupD caps.endpoints
             "update_checkout" ("/ucp/checkout/" ++ checkout_id))
             "{id}" checkout_id) }] ∧
     (ucpCompleteCheckout (.ok order) { base_url := base, capabilities := some caps } checkout_id "tok" none).2 =
        [{ method := "POST",
           url := urljoin base (pyReplace (lookupD caps.endpoints
             "complete_checkout" ("/ucp/checkout/" ++ checkout_id ++ "/complete"))
             "{id}" checkout_id), token := some "tok" }] ∧
     (ucpCancelCheckout (.ok cancelled) { base_url := base, capabilities := some caps } checkout_id).2 =
        [{ method := "POST",
           url := urljoin base (pyReplace (lookupD caps.endpoints
             "cancel_checkout" ("/ucp/checkout/" ++ checkout_id ++ "/cancel"))
             "{id}" checkout_id) }] ∧
     (ucpGetCheckout (.ok chk) { base_url := base, capabilities := some caps } checkout_id).2 =
        [{ method := "GET",
           url := urljoin base (pyReplace (lookupD caps.endpoints
             "get_checkout" ("/ucp/checkout/" ++ checkout_id))
             "{id}" checkout_id) }] ∧
     (ucpCreateCheckout (.response 404 none) (.ok chk) { base_url := base, capabilities := some caps }).2.2 =
        if caps.supported then
          [{ method := "POST",
             url := urljoin base (lookupD caps.endpoints
               "create_checkout" "/ucp/checkout") }]
        else []) := by
  refine ⟨⟨rfl, rfl⟩, ⟨rfl, rfl, rfl, rfl⟩, ⟨rfl, rfl, rfl, rfl, rfl⟩, ?_⟩
  intro base checkout_id caps chk order cancelled
  refine ⟨rfl, rfl, rfl, rfl, ?_⟩
  by_cases hs : caps.supported
  · simp [ucpCreateCheckout, ucpSupports, hs]
  · simp only [Bool.not_eq_true] at hs
    simp [ucpCreateCheckout, ucpSupports, hs]

/-! ## C2: does a successful `complete_checkout` empty the cart? -/

/-- C2 counterexample: with a Stripe-hosted checkout session stored as the
current checkout (as `_create_checkout`'s Stripe fallback does) and one
item in the cart, `_complete_checkout` with `confirm_purchase=true`
returns `success=true` — yet a subsequent `_view_cart` reports
`item_count = 1`, not `0`. -/
theorem complete_success_cart_counterexample :
    let st : AgentState :=
      { current_cart := [{ product_id := "prod_1", quantity := 1 }],
        current_checkout := some
          { id := some "cs_1",
            url := some "https://checkout.stripe.com/pay/cs_1" } }
    let r := agentCompleteCheckout {} "u-1" st "cs_1" true
    r.1.success = true ∧
    (viewCart r.2.1.current_cart).item_count = 1 ∧
    (viewCart r.2.1.current_cart).item_count ≠ 0 :=
  ⟨rfl, rfl, by decide⟩

/-- C2 as amended: in the code as written, a `_complete_checkout` call that
returns `success=true` never empties the cart — the only reachable success
path is the Stripe-hosted branch, which leaves the whole agent state
(hence `view_cart().item_count`) unchanged.  The UCP cart-clearing path
cannot succeed, because the freshly constructed `UCPClient` has no
capabilities and its `complete_checkout` raises before issuing the
request. -/
theorem complete_success_leaves_cart_unchanged (env : CompleteEnv)
    (uuid : String) (st : AgentState) (checkout_id : String)
    (h : (agentCompleteCheckout env uuid st checkout_id true).1.success = true) :
    (agentCompleteCheckout env uuid st checkout_id true).2.1 = st ∧
    (viewCart
      (agentCompleteCheckout env uuid st checkout_id true).2.1.current_cart).item_count
      = st.current_cart.length := by
  simp only [agentCompleteCheckout] at h ⊢
  cases hc : st.current_checkout with
  | none => simp [hc] at h
  | some chk =>
    by_cases hp : chk.protocol = some "UCP"
    · cases hm : chk.merchant_url with
      | none => simp [hc, hp, hm] at h
      | some murl =>
        cases hspt : env.spt with
        | error e => simp [hc, hp, hm, hspt] at h
        | ok spt =>
          simp [hc, hp, hm, hspt, ucpCompleteCheckout, mkUCPClient] at h
    · simp [hc, hp, viewCart]

/-- Witness for C2 (amended) at a concrete Stripe-hosted checkout: the
success result leaves the single-item cart in place. -/
theorem complete_success_leaves_cart_unchanged_witness :
    (agentCompleteCheckout {} "u-2"
      { current_cart := [{ product_id := "prod_9", quantity := 2 }],
        current_checkout := some
          { id := some "cs_9", url := some "https://stripe.example/pay" } }
      "cs_9" true).2.1 =
      { current_cart := [{ product_id := "prod_9", quantity := 2 }],
        current_checkout := some
          { id := some "cs_9", url := some "https://stripe.example/pay" } } ∧
    (viewCart (agentCompleteCheckout {} "u-2"
      { current_cart := [{ product_id := "prod_9", quantity := 2 }],
        current_checkout := some
          { id := some "cs_9", url := some "https://stripe.example/pay" } }
      "cs_9" true).2.1.current_cart).item_count = 1 :=
  complete_success_leaves_cart_unchanged {} "u-2"
    { current_cart := [{ product_id := "prod_9", quantity := 2 }],
      current_checkout := some
        { id := some "cs_9", url := some "https://stripe.example/pay" } }
    "cs_9" rfl

/-! ## C3: the UCP completion path of `_complete_checkout` -/

/-- C3: `_create_checkout` stores the merchant's raw checkout JSON as
`current_checkout`, but `_complete_checkout` only enters the UCP branch
when that dict itself carries `protocol == "UCP"` — a key the agent never
stores.  At a spec-shaped UCP create response, the call with
`confirm_purchase=true` takes the Stripe branch: no Shared Payment Token
is created, no `UCPClient.complete_checkout` call happens, the cart stays
full, and the result is `success=true` with `checkout_url=None`.  Moreover,
even a stored dict carrying `protocol="UCP"`, a merchant URL and a merchant
account only gets as far as the (real) SPT creation: the fresh
`UCPClient`'s `complete_checkout` raises the `AttributeError` on its empty
capability cache before issuing the UCP request, so the completion errors
out and the cart is never cleared. -/
theorem complete_ucp_path_never_runs :
    (let ucpResponse : CheckoutDict :=
      { id := some "chk_1", amount_total := some 5000 }
     let st : AgentState :=
      { current_cart := [{ product_id := "prod_1", quantity := 1 }],
        current_checkout := some ucpResponse }
     agentCompleteCheckout
        { spt := .ok { token := "spt_tok" }, ucpComplete := .ok "order_json" }
        "uuid-1" st "chk_1" true =
      ({ success := true,
         message := some "Please complete payment at the checkout URL",
         checkout_url := some none }, st, none, [])) ∧
    (let taggedResponse : CheckoutDict :=
      { id := some "chk_1", protocol := some "UCP",
        merchant_url := some "https://shop.example.com",
        amount_total := some 5000,
        merchant_account_id := some "acct_1" }
     let st2 : AgentState :=
      { current_cart := [{ product_id := "prod_1", quantity := 1 }],
        current_checkout := some taggedResponse }
     agentCompleteCheckout
        { spt := .ok { token := "spt_tok" }, ucpComplete := .ok "order_json" }
        "uuid-1" st2 "chk_1" true =
      ({ success := false,
         error := some "'NoneType' object has no attribute 'endpoints'" },
       st2, some "'NoneType' object has no attribute 'endpoints'",
       [.sptCreate 5000 (some "acct_1")])) :=
  ⟨rfl, rfl⟩

/-! ## C4: caught exceptions yield error dicts and leave the state intact -/

/-- C4: whenever a downstream call of `_create_checkout` or
`_complete_checkout` raises (the exception the outer handler catches is
reported in the third component), the operation returns
`{success: false, error: str(e)}` instead of propagating, and
`current_cart`/`current_checkout` are exactly what they were before the
call — no partial mutation on failure. -/
theorem checkout_error_handling :
    (∀ (ebf : Bool) (baCfg : BAConfig) (env : CreateEnv) (st : AgentState)
       (murl bemail : String) (bname : Option String)
       (ship : Option AddrDict) (e : String),
       (agentCreateCheckout ebf baCfg env st murl bemail bname ship).2.2.1 =
         some e →
       (agentCreateCheckout ebf baCfg env st murl bemail bname ship).1 =
         .errored e ∧
       (agentCreateCheckout ebf baCfg env st murl bemail bname ship).2.1 = st) ∧
    (∀ (env : CompleteEnv) (uuid : String) (st : AgentState)
       (checkout_id : String) (confirm : Bool) (e : String),
       (agentCompleteCheckout env uuid st checkout_id confirm).2.2.1 =
         some e →
       (agentCompleteCheckout env uuid st checkout_id confirm).1 =
         { success := false, error := some e } ∧
       (agentCompleteCheckout env uuid st checkout_id confirm).2.1 = st) := by
  constructor
  · intro ebf baCfg env st murl bemail bname ship e h
    simp only [agentCreateCheckout] at h ⊢
    rcases hsup : ucpSupports env.wire (mkUCPClient murl) with ⟨r, client', reqs⟩
    simp only [hsup] at h ⊢
    cases r with
    | error err => simp_all
    | ok supported =>
      cases supported with
      | true =>
        simp only [if_pos rfl] at h ⊢
        cases hship : ship with
        | none =>
          simp only [hship] at h ⊢
          rcases hcc : ucpCreateCheckout env.wire env.ucpCreate client'
            with ⟨rc, st2, reqs2⟩
          simp only [hcc] at h ⊢
          cases rc <;> simp_all
        | some d =>
          simp only [hship] at h ⊢
          cases hpa : parseAddress d with
          | error pe => simp_all [Except.map]
          | ok a =>
            simp only [hpa, Except.map] at h ⊢
            rcases hcc : ucpCreateCheckout env.wire env.ucpCreate client'
              with ⟨rc, st2, reqs2⟩
            simp only [hcc] at h ⊢
            cases rc <;> simp_all
      | false =>
        simp only [Bool.false_eq_true, if_neg, ite_false] at h ⊢
        cases ebf with
        | true =>
          simp only [if_pos rfl] at h ⊢
          cases houtcome : (automateCheckout baCfg env.ba
            { merchant_url := murl, cart_items := st.current_cart,
              shipping_address := ship }).outcome <;> simp_all
        | false =>
          simp only [Bool.false_eq_true, if_neg, ite_false] at h ⊢
          cases hss : env.stripeSession <;> simp_all
  · intro env uuid st checkout_id confirm e h
    cases confirm with
    | false => simp [agentCompleteCheckout] at h
    | true =>
      simp only [agentCompleteCheckout] at h ⊢
      cases hc : st.current_checkout with
      | none => simp [hc] at h
      | some chk =>
        by_cases hp : chk.protocol = some "UCP"
        · cases hm : chk.merchant_url with
          | none => simp_all
          | some murl =>
            cases hspt : env.spt with
            | error se => simp_all
            | ok spt =>
              simp_all [ucpCompleteCheckout, mkUCPClient]
        · simp [hc, hp] at h

/-- Witness for C4: a transport failure during discovery makes
`_create_checkout` return the wrapped error dict with the state intact,
and a UCP-tagged checkout without a stored merchant URL makes
`_complete_checkout` catch the `AttributeError` from `None.rstrip` and
return it as an error dict with the state intact. -/
theorem checkout_error_handling_witness :
    ((agentCreateCheckout false {} { wire := .transportError "conn reset" }
        { current_cart := [{ product_id := "prod_1", quantity := 1 }] }
        "https://m.example" "b@example.com" none none).1 =
      .errored "UCP discovery failed: conn reset" ∧
     (agentCreateCheckout false {} { wire := .transportError "conn reset" }
        { current_cart := [{ product_id := "prod_1", quantity := 1 }] }
        "https://m.example" "b@example.com" none none).2.1 =
      { current_cart := [{ product_id := "prod_1", quantity := 1 }] }) ∧
    ((agentCompleteCheckout {} "u-3"
        { current_cart := [{ product_id := "prod_2", quantity := 1 }],
          current_checkout := some { id := some "chk_2", protocol := some "UCP" } }
        "chk_2" true).1 =
      { success := false,
        error := some "'NoneType' object has no attribute 'rstrip'" } ∧
     (agentCompleteCheckout {} "u-3"
        { current_cart := [{ product_id := "prod_2", quantity := 1 }],
          current_checkout := some { id := some "chk_2", protocol := some "UCP" } }
        "chk_2" true).2.1 =
      { current_cart := [{ product_id := "prod_2", quantity := 1 }],
        current_checkout := some { id := some "chk_2", protocol := some "UCP" } }) :=
  ⟨checkout_error_handling.1 false {} { wire := .transportError "conn reset" }
     { current_cart := [{ product_id := "prod_1", quantity := 1 }] }
     "https://m.example" "b@example.com" none none
     "UCP discovery failed: conn reset" rfl,
   checkout_error_handling.2 {} "u-3"
     { current_cart := [{ product_id := "prod_2", quantity := 1 }],
       current_checkout := some { id := some "chk_2", protocol := some "UCP" } }
     "chk_2" true "'NoneType' object has no attribute 'rstrip'" rfl⟩

/-! ## C9: `automate_checkout` failure handling and resource release -/

/-- C9 counterexample: on an exception (here the page navigation failing)
`automate_checkout` does return a structured error with a diagnostic
screenshot — but only the page is released; the browser context is not
released by the call (its `finally` block only closes the page, and
`stop()` is never called), refuting the claim that context and page are
always released in the `finally` block. -/
theorem browser_context_release_counterexample :
    let env : BAEnv := { goto := .error "net::ERR_CONNECTION_REFUSED" }
    let args : BAArgs :=
      { merchant_url := "https://shop.example.com",
        cart_items := [{ product_id := "prod_1", quantity := 1 }] }
    let run := automateCheckout {} env args
    run.outcome = .ok
      { success := false,
        error := some "net::ERR_CONNECTION_REFUSED",
        screenshot := some (some "error_screenshot.png") } ∧
    run.pageClosed = true ∧
    run.contextClosed = false :=
  ⟨rfl, rfl, rfl⟩

/-- C9 as amended: when a step inside the `try` block raises and the
error-path screenshot succeeds (or screenshots are disabled),
`automate_checkout` returns `{success: false, error: str(e)}` (with the
screenshot path when enabled) instead of propagating; and whenever the
startup phase succeeded, the page — but not the browser context — is
always released in the `finally` block, whatever the outcome.  (An
exception during startup, before the `try`, propagates; the context is
released only by `stop()`.) -/
theorem browser_automation_error_handling :
    (∀ (cfg : BAConfig) (env : BAEnv) (args : BAArgs) (e path : String),
       env.pre = .ok () → baTryBody env args = .error e →
       cfg.screenshot_on_error = true → env.screenshot = .ok path →
       automateCheckout cfg env args =
         { outcome :=
             .ok { success := false, error := some e,
                   screenshot := some (some path) },
           pageOpened := true, pageClosed := true, contextClosed := false }) ∧
    (∀ (cfg : BAConfig) (env : BAEnv) (args : BAArgs) (e : String),
       env.pre = .ok () → baTryBody env args = .error e →
       cfg.screenshot_on_error = false →
       automateCheckout cfg env args =
         { outcome :=
             .ok { success := false, error := some e,
                   screenshot := some none },
           pageOpened := true, pageClosed := true, contextClosed := false }) ∧
    (∀ (cfg : BAConfig) (env : BAEnv) (args : BAArgs),
       env.pre = .ok () →
       (automateCheckout cfg env args).pageClosed = true ∧
       (automateCheckout cfg env args).contextClosed = false) := by
  refine ⟨?_, ?_, ?_⟩
  · intro cfg env args e path hpre hbody hcfg hshot
    simp [automateCheckout, hpre, hbody, hcfg, hshot]
  · intro cfg env args e hpre hbody hcfg
    simp [automateCheckout, hpre, hbody, hcfg]
  · intro cfg env args hpre
    simp only [automateCheckout, hpre]
    cases hb : baTryBody env args with
    | ok r => exact ⟨rfl, rfl⟩
    | error e =>
      cases hcfg : cfg.screenshot_on_error with
      | true =>
        cases hshot : env.screenshot with
        | ok p => simp [hcfg, hshot]
        | error e2 => simp [hcfg, hshot]
      | false => simp [hcfg]

/-- Witness for C9 (amended): with screenshots disabled and the
checkout-navigation step raising, the call returns the structured error
and closes the page but not the context. -/
theorem browser_automation_error_handling_witness :
    automateCheckout { screenshot_on_error := false }
      { navigate := .error "Could not find checkout button" }
      { merchant_url := "https://fallback.example", cart_items := [] } =
      { outcome :=
          .ok { success := false,
                error := some "Could not find checkout button",
                screenshot := some none },
        pageOpened := true, pageClosed := true, contextClosed := false } :=
  browser_automation_error_handling.2.1 { screenshot_on_error := false }
    { navigate := .error "Could not find checkout button" }
    { merchant_url := "https://fallback.example", cart_items := [] }
    "Could not find checkout button" rfl rfl rfl

end PaymentAgentSpec
